import Mathlib

/-!
Verification of `src/sqlite_example.py`: a script that loads a fixed list of
five retail products into a SQLite table (`load_db`) and runs two read
queries against it (`run_query`).

Shallow embedding. The persisted store (`inventory.db` with its single table
`products`) is modelled as an `Option (List Record)`: `none` means the table
does not exist, `some rows` is the table's contents in insertion order.
SQLite errors (no such table, primary-key constraint violation) are modelled
with `Except DbError`. Printed lines are collected in a `List String`.
-/

namespace SqliteExample

/-- One row of the `products` table: `(productID TEXT PRIMARY KEY,
description TEXT, quantity INTEGER)`. -/
structure Record where
  productID : String
  description : String
  quantity : Int
deriving Repr, DecidableEq

/-- The fixed sample list `plist` from the source. -/
def plistInit : List Record :=
  [ ⟨"85123A", "Blue paisley tissue box", 8⟩,
    ⟨"82578", "Kitchen metal sign", 2⟩,
    ⟨"22111", "Small popcorn holder", 3⟩,
    ⟨"23084", "Rabbit night light", 8⟩,
    ⟨"22776", "Swallows greeting card", 4⟩ ]

/-- SQLite errors that the script can hit. -/
inductive DbError where
  | noSuchTable
  | constraintViolation
deriving Repr, DecidableEq

/-- Program state: the persisted `products` table (`none` when absent) and
the global `plist` (a mutable Python list in the source, so it is threaded
through the state to express that no operation mutates it). -/
structure State where
  table : Option (List Record)
  plist : List Record
deriving Repr, DecidableEq

/-- `cur.execute("DROP TABLE products")`: errors when the table is absent,
otherwise removes it. No existence check is made first. -/
def dropTable (st : State) : Except DbError State :=
  match st.table with
  | none => .error .noSuchTable
  | some _ => .ok { st with table := none }

/-- `cur.execute("CREATE TABLE IF NOT EXISTS products (...)")`: creates an
empty table when absent, otherwise leaves the table unchanged. -/
def createTableIfNotExists (st : State) : State :=
  match st.table with
  | none => { st with table := some [] }
  | some _ => st

/-- Insert one row. SQLite rejects a duplicate `productID` (the primary key)
with a constraint error; otherwise the row is appended. -/
def insertRow (rows : List Record) (r : Record) : Except DbError (List Record) :=
  if rows.any (fun x => x.productID == r.productID) then
    .error .constraintViolation
  else
    .ok (rows ++ [r])

/-- `cur.executemany("INSERT INTO products ... VALUES (?, ?, ?)", plist)`:
insert the given rows in order, stopping at the first error. -/
def insertMany (rows : List Record) : List Record → Except DbError (List Record)
  | [] => .ok rows
  | r :: rs =>
    match insertRow rows r with
    | .error e => .error e
    | .ok rows' => insertMany rows' rs

/-- The bulk-insert step of `load_db`, acting on the state. -/
def executemanyInsert (st : State) : Except DbError State :=
  match st.table with
  | none => .error .noSuchTable
  | some rows =>
    match insertMany rows st.plist with
    | .error e => .error e
    | .ok rows' => .ok { st with table := some rows' }

/-- `load_db()`: print the loading message, drop the table (unguarded),
recreate it, bulk-insert `plist`, commit, close. Returns the new state and
the printed lines. -/
def load_db (st : State) : Except DbError (State × List String) :=
  let out := ["Loading the database with " ++ toString st.plist.length ++ " items."]
  match dropTable st with
  | .error e => .error e
  | .ok st1 =>
    let st2 := createTableIfNotExists st1
    match executemanyInsert st2 with
    | .error e => .error e
    | .ok st3 => .ok (st3, out)

/-- ASCII lower-casing, as SQLite's default `LIKE` applies to ASCII. -/
def lowerChar (c : Char) : Char :=
  if 65 ≤ c.toNat && c.toNat ≤ 90 then Char.ofNat (c.toNat + 32) else c

/-- SQLite `LIKE` pattern matching: `%` matches any sequence (so the rest of
the pattern must match some suffix of the string), `_` matches any single
character, other characters match ASCII case-insensitively. -/
def likeMatch : List Char → List Char → Bool
  | [], s => s.isEmpty
  | '%' :: ps, s => s.tails.any (fun t => likeMatch ps t)
  | '_' :: ps, s =>
    match s with
    | [] => false
    | _ :: t => likeMatch ps t
  | p :: ps, s =>
    match s with
    | [] => false
    | c :: t => (lowerChar p == lowerChar c) && likeMatch ps t

/-- `SELECT * FROM products WHERE description LIKE ?` with the given
pattern, in insertion order. -/
def selectLike (rows : List Record) (pat : String) : List Record :=
  rows.filter (fun r => likeMatch pat.data r.description.data)

/-- `SELECT * FROM products WHERE productID = ?`, in insertion order. -/
def selectByID (rows : List Record) (pid : String) : List Record :=
  rows.filter (fun r => r.productID == pid)

/-- Plain (case-sensitive) substring containment, used to state the spec's
"contains ... as a substring" reading of the `LIKE` query. -/
def startsWithChars : List Char → List Char → Bool
  | [], _ => true
  | _ :: _, [] => false
  | a :: as, b :: bs => a == b && startsWithChars as bs

/-- `containsSub needle hay`: `needle` occurs contiguously in `hay`. -/
def containsSub (needle : List Char) : List Char → Bool
  | [] => startsWithChars needle []
  | b :: bs => startsWithChars needle (b :: bs) || containsSub needle bs

/-- The three lines printed for one result row. -/
def printRec (r : Record) : List String :=
  [ "Product ID: " ++ r.productID,
    "Description: " ++ r.description,
    "Quantity: " ++ toString r.quantity ]

/-- `run_query()`: run the `LIKE '%sign%'` query and the exact-match query
for `"22776"`, printing each result row. Reads only; returns the unchanged
state and the printed lines. -/
def run_query (st : State) : Except DbError (State × List String) :=
  match st.table with
  | none => .error .noSuchTable
  | some rows =>
    let q1 := selectLike rows ("%" ++ "sign" ++ "%")
    let q2 := selectByID rows "22776"
    .ok (st, ["Records that match query 1: "] ++ (q1.map printRec).flatten
          ++ ["Records that match query 2: "] ++ (q2.map printRec).flatten)

/-- `main()`: load then query, with the surrounding status prints. -/
def main_run (st : State) : Except DbError (State × List String) :=
  match load_db st with
  | .error e => .error e
  | .ok (st1, out1) =>
    match run_query st1 with
    | .error e => .error e
    | .ok (st2, out2) =>
      .ok (st2, ["Loading the database..."] ++ out1 ++ ["Done.", "Querying:"] ++ out2)

/-! ### Helper lemmas -/

/-- When the table exists, `load_db` reduces to inserting `plist` into a
fresh empty table. -/
theorem load_db_eq (st : State) (rows : List Record) (h : st.table = some rows) :
    load_db st =
      match insertMany [] st.plist with
      | .error e => .error e
      | .ok t =>
        .ok ({ table := some t, plist := st.plist },
          ["Loading the database with " ++ toString st.plist.length ++ " items."]) := by
  simp only [load_db, dropTable, h, createTableIfNotExists, executemanyInsert]
  cases insertMany [] st.plist <;> rfl

/-- On success, `load_db` leaves `plist` unchanged and stores the result of
inserting `plist` into an empty table. -/
theorem load_db_ok (st st1 : State) (o1 : List String)
    (h : load_db st = .ok (st1, o1)) :
    st1.plist = st.plist ∧ insertMany [] st.plist = .ok (st1.table.getD []) := by
  cases htab : st.table with
  | none => simp [load_db, dropTable, htab] at h
  | some rows =>
    rw [load_db_eq st rows htab] at h
    cases hins : insertMany [] st.plist with
    | error e => rw [hins] at h; cases h
    | ok t =>
      rw [hins] at h
      cases h
      exact ⟨rfl, rfl⟩

/-- When the table exists, `run_query` succeeds, returns the state
unchanged, and prints the two query results. -/
theorem run_query_eq (st : State) (rows : List Record) (h : st.table = some rows) :
    run_query st = .ok (st,
      ["Records that match query 1: "]
        ++ ((selectLike rows ("%" ++ "sign" ++ "%")).map printRec).flatten
        ++ ["Records that match query 2: "]
        ++ ((selectByID rows "22776").map printRec).flatten) := by
  simp [run_query, h]

/-- `run_query` never changes the state on success. -/
theorem run_query_ok_state (st st' : State) (out : List String)
    (h : run_query st = .ok (st', out)) : st' = st := by
  cases htab : st.table with
  | none => simp [run_query, htab] at h
  | some rows =>
    rw [run_query_eq st rows htab] at h
    cases h
    rfl

/-- A filter by one key returns at most one row when the keys are
pairwise distinct. -/
theorem length_selectByID_le_one (rows : List Record) (pid : String)
    (h : (rows.map Record.productID).Nodup) : (selectByID rows pid).length ≤ 1 := by
  induction rows with
  | nil => simp [selectByID]
  | cons r rs ih =>
    rw [List.map_cons, List.nodup_cons] at h
    obtain ⟨hr, hrs⟩ := h
    by_cases hp : r.productID == pid
    · have hnil : selectByID rs pid = [] := by
        rw [selectByID, List.filter_eq_nil_iff]
        intro x hx hxp
        apply hr
        rw [beq_iff_eq] at hp hxp
        rw [hp, ← hxp]
        exact List.mem_map_of_mem Record.productID hx
      rw [selectByID] at hnil ⊢
      rw [List.filter_cons, if_pos hp, hnil]
      simp
    · rw [selectByID, List.filter_cons, if_neg hp, ← selectByID]
      exact ih hrs

/-- `insertRow` rejects a row whose key is already present. -/
theorem insertRow_dup (rows : List Record) (r : Record)
    (h : r.productID ∈ rows.map Record.productID) :
    insertRow rows r = .error .constraintViolation := by
  rw [insertRow, if_pos]
  rw [List.any_eq_true]
  obtain ⟨x, hx, hxe⟩ := List.mem_map.mp h
  exact ⟨x, hx, by rw [beq_iff_eq, hxe]⟩

/-- Successful bulk insertion preserves pairwise distinctness of keys. -/
theorem insertMany_nodup (toIns : List Record) :
    ∀ rows rows2 : List Record, (rows.map Record.productID).Nodup →
      insertMany rows toIns = .ok rows2 → (rows2.map Record.productID).Nodup := by
  induction toIns with
  | nil =>
    intro rows rows2 h he
    rw [insertMany] at he
    cases he
    exact h
  | cons r rs ih =>
    intro rows rows2 h he
    rw [insertMany] at he
    by_cases hdup : rows.any (fun x => x.productID == r.productID)
    · rw [insertRow, if_pos hdup] at he
      cases he
    · rw [insertRow, if_neg hdup] at he
      apply ih (rows ++ [r]) rows2 _ he
      rw [List.map_append, List.nodup_append]
      refine ⟨h, List.nodup_singleton _, ?_⟩
      intro a ha hb
      rw [List.map_singleton, List.mem_singleton] at hb
      subst hb
      obtain ⟨x, hx, hxe⟩ := List.mem_map.mp ha
      exact hdup (List.any_eq_true.mpr ⟨x, hx, by rw [beq_iff_eq, hxe]⟩)

/-! ### Claims -/

/-- C1: for every prior table contents, when the table exists (so the
unguarded drop succeeds) and `plist` is the fixed sample list, `load_db`
succeeds and the table afterwards contains exactly the five sample records
and nothing else; running `load_db` again from the resulting state again
leaves exactly those five rows, with no duplicates. -/
theorem C1_loader_exact_contents (st : State) (rows : List Record)
    (ht : st.table = some rows) (hp : st.plist = plistInit) :
    ∃ st1 o1, load_db st = .ok (st1, o1) ∧ st1.table = some plistInit ∧
      ∃ st2 o2, load_db st1 = .ok (st2, o2) ∧ st2.table = some plistInit := by
  have h1 : load_db st = .ok ({ table := some plistInit, plist := plistInit },
      ["Loading the database with 5 items."]) := by
    rw [load_db_eq st rows ht, hp]
    rfl
  have h2 : load_db { table := some plistInit, plist := plistInit }
      = .ok ({ table := some plistInit, plist := plistInit },
        ["Loading the database with 5 items."]) := by
    rw [load_db_eq _ plistInit rfl]
    rfl
  exact ⟨_, _, h1, rfl, _, _, h2, rfl⟩

theorem C1_loader_exact_contents_witness :
    ∃ st1 o1, load_db { table := some [], plist := plistInit } = .ok (st1, o1) ∧
      st1.table = some plistInit ∧
      ∃ st2 o2, load_db st1 = .ok (st2, o2) ∧ st2.table = some plistInit :=
  C1_loader_exact_contents { table := some [], plist := plistInit } [] rfl rfl

/-- C2: when the named table does not exist, the unconditional
`DROP TABLE` raises an error that propagates out of `load_db`; no existence
check is performed first. -/
theorem C2_drop_fails_when_table_absent (st : State) (ht : st.table = none) :
    load_db st = .error .noSuchTable := by
  simp [load_db, dropTable, ht]

theorem C2_drop_fails_when_table_absent_witness :
    load_db { table := none, plist := plistInit } = .error .noSuchTable :=
  C2_drop_fails_when_table_absent { table := none, plist := plistInit } rfl

/-- C3: round trip -- for every record of the fixed input list, after
`load_db` succeeds, the exact-match query on its `productID` returns
precisely that record, so `description` and `quantity` come back exactly as
inserted. -/
theorem C3_round_trip (st : State) (rows : List Record) (r : Record)
    (ht : st.table = some rows) (hp : st.plist = plistInit) (hr : r ∈ plistInit) :
    ∃ st1 o1, load_db st = .ok (st1, o1) ∧
      ∀ t, st1.table = some t → selectByID t r.productID = [r] := by
  have h1 : load_db st = .ok ({ table := some plistInit, plist := plistInit },
      ["Loading the database with 5 items."]) := by
    rw [load_db_eq st rows ht, hp]
    rfl
  refine ⟨_, _, h1, ?_⟩
  intro t htt
  have ht2 : plistInit = t := by simpa using htt
  subst ht2
  revert hr
  revert r
  decide

theorem C3_round_trip_witness :
    ∃ st1 o1, load_db { table := some [], plist := plistInit } = .ok (st1, o1) ∧
      ∀ t, st1.table = some t →
        selectByID t (Record.mk "85123A" "Blue paisley tissue box" 8).productID
          = [Record.mk "85123A" "Blue paisley tissue box" 8] :=
  C3_round_trip { table := some [], plist := plistInit } []
    (Record.mk "85123A" "Blue paisley tissue box" 8) rfl rfl (by decide)

/-- C4: the `LIKE` query with pattern `%sign%` on the loaded sample set
returns exactly the rows whose description contains `"sign"` as a
substring: the single record with productID `"82578"` and description
`"Kitchen metal sign"`. -/
theorem C4_substring_query :
    selectLike plistInit ("%" ++ "sign" ++ "%")
        = plistInit.filter (fun r => containsSub ("sign".data) (r.description.data)) ∧
    selectLike plistInit ("%" ++ "sign" ++ "%")
        = [{ productID := "82578", description := "Kitchen metal sign", quantity := 2 }] :=
  ⟨by decide, by decide⟩

/-- C5: the exact-match query for `"22776"` on the loaded sample set
returns exactly one row, `("22776", "Swallows greeting card", 4)`; and for
any table whose keys are pairwise distinct (the primary-key invariant), an
exact-`productID` query yields at most one row. -/
theorem C5_exact_query (rows : List Record) (pid : String)
    (h : (rows.map Record.productID).Nodup) :
    selectByID plistInit "22776"
        = [{ productID := "22776", description := "Swallows greeting card", quantity := 4 }] ∧
    (selectByID rows pid).length ≤ 1 :=
  ⟨by decide, length_selectByID_le_one rows pid h⟩

theorem C5_exact_query_witness :
    selectByID plistInit "22776"
        = [{ productID := "22776", description := "Swallows greeting card", quantity := 4 }] ∧
    (selectByID plistInit "22776").length ≤ 1 :=
  C5_exact_query plistInit "22776" (by decide)

/-- C6: the five sample `productID`s are pairwise distinct; inserting a row
whose `productID` is already in the table fails with a constraint error;
and any successful bulk insert starting from a table with pairwise-distinct
keys leaves a table with pairwise-distinct keys. -/
theorem C6_uniqueness (rows : List Record) (r : Record)
    (hdup : r.productID ∈ rows.map Record.productID)
    (rows0 toIns rows2 : List Record)
    (h0 : (rows0.map Record.productID).Nodup)
    (hok : insertMany rows0 toIns = .ok rows2) :
    (plistInit.map Record.productID).Nodup ∧
    insertRow rows r = .error .constraintViolation ∧
    (rows2.map Record.productID).Nodup :=
  ⟨by decide, insertRow_dup rows r hdup, insertMany_nodup toIns rows0 rows2 h0 hok⟩

theorem C6_uniqueness_witness :
    (plistInit.map Record.productID).Nodup ∧
    insertRow plistInit { productID := "22776", description := "dup", quantity := 0 }
        = .error .constraintViolation ∧
    (plistInit.map Record.productID).Nodup :=
  C6_uniqueness plistInit { productID := "22776", description := "dup", quantity := 0 }
    (by decide) [] plistInit plistInit (by decide) (by rfl)

/-- C7: querying a `productID` absent from the loaded sample set returns
zero rows, and `run_query` itself succeeds (raises no error) on the loaded
table. -/
theorem C7_empty_result (pid : String)
    (h : pid ∉ plistInit.map Record.productID) :
    selectByID plistInit pid = [] ∧
    ∃ out, run_query { table := some plistInit, plist := plistInit }
      = .ok ({ table := some plistInit, plist := plistInit }, out) := by
  constructor
  · rw [selectByID, List.filter_eq_nil_iff]
    intro x hx hxp
    apply h
    rw [beq_iff_eq] at hxp
    rw [← hxp]
    exact List.mem_map_of_mem Record.productID hx
  · exact ⟨_, run_query_eq _ plistInit rfl⟩

theorem C7_empty_result_witness :
    selectByID plistInit "00000" = [] ∧
    ∃ out, run_query { table := some plistInit, plist := plistInit }
      = .ok ({ table := some plistInit, plist := plistInit }, out) :=
  C7_empty_result "00000" (by decide)

/-- C8: `run_query` is read-only -- whenever it succeeds, the persisted
state (in particular the table contents) is exactly unchanged. -/
theorem C8_run_query_readonly (st st2 : State) (out : List String)
    (h : run_query st = .ok (st2, out)) :
    st2.table = st.table ∧ st2 = st := by
  have he := run_query_ok_state st st2 out h
  exact ⟨by rw [he], he⟩

theorem C8_run_query_readonly_witness :
    (State.mk (some plistInit) plistInit).table
        = (State.mk (some plistInit) plistInit).table ∧
    State.mk (some plistInit) plistInit = State.mk (some plistInit) plistInit :=
  C8_run_query_readonly (State.mk (some plistInit) plistInit)
    (State.mk (some plistInit) plistInit)
    [ "Records that match query 1: ", "Product ID: 82578",
      "Description: Kitchen metal sign", "Quantity: 2",
      "Records that match query 2: ", "Product ID: 22776",
      "Description: Swallows greeting card", "Quantity: 4" ]
    (by rfl)

/-- C9: determinism -- the program takes no flags, environment input, or
user input, so a whole run (`main_run`, including its standard output) is a
pure function of the initial store state: two runs from equal initial
states produce identical final store contents and identical output. -/
theorem C9_deterministic (s1 s2 : State) (h : s1 = s2) :
    main_run s1 = main_run s2 := by
  rw [h]

theorem C9_deterministic_witness :
    main_run { table := some [], plist := plistInit }
      = main_run { table := some [], plist := plistInit } :=
  C9_deterministic { table := some [], plist := plistInit }
    { table := some [], plist := plistInit } rfl

/-- C10: neither `load_db` nor `run_query` modifies the global sample list
`plist`: after a successful load followed by a successful query, the
threaded `plist` equals its initial value. -/
theorem C10_plist_immutable (st st1 st2 : State) (o1 o2 : List String)
    (h1 : load_db st = .ok (st1, o1)) (h2 : run_query st1 = .ok (st2, o2)) :
    st1.plist = st.plist ∧ st2.plist = st.plist := by
  have ha := (load_db_ok st st1 o1 h1).1
  have hb := run_query_ok_state st1 st2 o2 h2
  exact ⟨ha, by rw [hb, ha]⟩

theorem C10_plist_immutable_witness :
    (State.mk (some plistInit) plistInit).plist
        = (State.mk (some []) plistInit).plist ∧
    (State.mk (some plistInit) plistInit).plist
        = (State.mk (some []) plistInit).plist :=
  C10_plist_immutable (State.mk (some []) plistInit)
    (State.mk (some plistInit) plistInit)
    (State.mk (some plistInit) plistInit)
    ["Loading the database with 5 items."]
    [ "Records that match query 1: ", "Product ID: 82578",
      "Description: Kitchen metal sign", "Quantity: 2",
      "Records that match query 2: ", "Product ID: 22776",
      "Description: Swallows greeting card", "Quantity: 4" ]
    (by rfl) (by rfl)

end SqliteExample
